/-
  Verification of the Schwab 1099-B to TXF converters.

  This file gives a shallow embedding of the two source programs
    - taxform_parser.py        (self-contained variant, namespace Taxform)
    - convert-1099B-2022.py    (checkbox-driven variant, namespace Convert2022)
  and proves the frozen claims about them.

  Machine integers, floats and Python Decimal values are modelled as exact
  rationals; strings as Lean strings operated on through their character
  lists (so every definition reduces in the kernel).
-/
import Mathlib

attribute [local semireducible] Rat.add Rat.mul Rat.sub Rat.inv

/-! ### Shared string utilities (models of the Python primitives used) -/

/-- Model of Python str.split(sep) for a single-character separator:
keeps empty fields, exactly as Python does. -/
def splitChar (sep : Char) : List Char → List Char → List String
  | cur, [] => [String.mk cur.reverse]
  | cur, c :: cs =>
    if c = sep then String.mk cur.reverse :: splitChar sep [] cs
    else splitChar sep (c :: cur) cs

/-- Python tok.split(sep) on a string. -/
def pySplit (sep : Char) (s : String) : List String :=
  splitChar sep [] s.toList

/-- Model of Python str.strip (whitespace from both ends). -/
def pyStrip (s : String) : String :=
  String.mk (((s.toList.dropWhile Char.isWhitespace).reverse.dropWhile
    Char.isWhitespace).reverse)

/-- Model of Python str.startswith. -/
def strStarts (pre s : String) : Bool :=
  pre.toList.isPrefixOf s.toList

/-- Model of Python str.endswith. -/
def strEnds (suf s : String) : Bool :=
  suf.toList.reverse.isPrefixOf s.toList.reverse

/-- Model of Python str.upper on the ASCII cusip strings involved. -/
def pyUpper (s : String) : String :=
  String.mk (s.toList.map Char.toUpper)

/-- Model of Python s.replace(",", ""): drop every comma. -/
def stripCommas (s : String) : String :=
  String.mk (s.toList.filter (fun c => ¬ (c = ',')))

/-! ### Exact decimal parsing (model of float(...) and decimal.Decimal(...))

Python float() and Decimal() accept an optional sign followed by digits with
an optional fractional part.  The exotic forms (exponents, infinities) never
occur in the token languages this program feeds them, so they are not
modelled; a malformed literal makes the constructors raise, which the
embedding renders as `none`. -/

/-- Numeric value of a digit list (most significant first). -/
def digitsToNat (cs : List Char) : Nat :=
  cs.foldl (fun acc c => acc * 10 + (c.toNat - 48)) 0

/-- Unsigned decimal literal: digits, optionally a dot and more digits;
at least one digit overall. -/
def parseUnsignedDecimal (cs : List Char) : Option ℚ :=
  let ip := cs.takeWhile Char.isDigit
  match cs.dropWhile Char.isDigit with
  | [] => if ip.isEmpty then none else some (mkRat (Int.ofNat (digitsToNat ip)) 1)
  | '.' :: fp =>
    if fp.all Char.isDigit ∧ ¬ (ip.isEmpty ∧ fp.isEmpty) then
      some (mkRat (Int.ofNat
        (digitsToNat ip * 10 ^ fp.length + digitsToNat fp)) (10 ^ fp.length))
    else none
  | _ => none

/-- Signed decimal literal (model of Decimal(s) and float(s)). -/
def parseDecimal (s : String) : Option ℚ :=
  match s.toList with
  | '-' :: cs => (parseUnsignedDecimal cs).map (fun q => -q)
  | '+' :: cs => parseUnsignedDecimal cs
  | cs => parseUnsignedDecimal cs

/-- Decimal(s.replace(",", "")).  The sources only apply it to strings
matched by the amount patterns, which always parse, so the fallback 0 is
unreachable there. -/
def decimalOf (s : String) : ℚ :=
  (parseDecimal (stripCommas s)).getD 0

/-! ### Dates (model of datetime.strptime with format %m/%d/%Y) -/

structure SDate where
  month : Nat
  day : Nat
  year : Nat
deriving DecidableEq

/-- Gregorian leap-year rule used by datetime. -/
def isLeap (y : Nat) : Bool :=
  y % 4 = 0 ∧ (¬ (y % 100 = 0) ∨ y % 400 = 0)

def daysInMonth (m y : Nat) : Nat :=
  if m = 2 then (if isLeap y then 29 else 28)
  else if m = 4 ∨ m = 6 ∨ m = 9 ∨ m = 11 then 30
  else 31

/-- A 1-2 digit field of digits only, as strptime %m and %d accept. -/
def fieldNat (s : String) : Option Nat :=
  let cs := s.toList
  if cs.all Char.isDigit ∧ 1 ≤ cs.length ∧ cs.length ≤ 2 then
    some (digitsToNat cs)
  else none

/-- A 1-4 digit year field, as strptime %Y accepts. -/
def yearNat (s : String) : Option Nat :=
  let cs := s.toList
  if cs.all Char.isDigit ∧ 1 ≤ cs.length ∧ cs.length ≤ 4 then
    some (digitsToNat cs)
  else none

/-- datetime.strptime(s, "%m/%d/%Y"): month/day/year separated by slashes,
with full range validation by the datetime constructor. -/
def parseDate (s : String) : Option SDate :=
  match pySplit '/' s with
  | [ms, ds, ys] =>
    match fieldNat ms, fieldNat ds, yearNat ys with
    | some m, some d, some y =>
      if 1 ≤ m ∧ m ≤ 12 ∧ 1 ≤ d ∧ d ≤ daysInMonth m y ∧ 1 ≤ y ∧ y ≤ 9999 then
        some ⟨m, d, y⟩
      else none
    | _, _, _ => none
  | _ => none

/-- Chronological order on dates (datetime comparison). -/
def dateLe (a b : SDate) : Prop :=
  a.year < b.year ∨ (a.year = b.year ∧
    (a.month < b.month ∨ (a.month = b.month ∧ a.day ≤ b.day)))

instance (a b : SDate) : Decidable (dateLe a b) := by
  unfold dateLe; exact inferInstance

/-- strftime("%m/%d/%Y") rendering of a date. -/
def pad2 (n : Nat) : String :=
  if n < 10 then "0" ++ toString n else toString n

def pad4 (n : Nat) : String :=
  if n < 10 then "000" ++ toString n
  else if n < 100 then "00" ++ toString n
  else if n < 1000 then "0" ++ toString n
  else toString n

def dateStr (d : SDate) : String :=
  pad2 d.month ++ "/" ++ pad2 d.day ++ "/" ++ pad4 d.year

/-! ## Variant B: taxform_parser.py (self-contained layout) -/

namespace Taxform

/-- State of Form1099Tokenizer: the stripped input lines, the cursor, and
the leftover tokens of the line most recently split. -/
structure Tok where
  lines : List String
  line_idx : Nat
  tokens : List String
deriving DecidableEq

/-- Error raised by generate_parsing_error: the 1-based successor line
index and the raw text of line line_idx - 1 (Python index -1 is the last
line). -/
structure ParseErr where
  line : Nat
  text : String
deriving DecidableEq

def genError (t : Tok) : ParseErr :=
  ⟨t.line_idx, match t.line_idx with
    | 0 => t.lines.getLastD ""
    | n + 1 => t.lines.getD n ""⟩

/-- find_cusip, with fuel equal to the number of unscanned lines: scans
forward for a line starting with 3825 or 0207 and consumes it. -/
def findCusipAux : Nat → Tok → Option (String × Tok)
  | 0, _ => none
  | fuel + 1, t =>
    if t.line_idx < t.lines.length then
      let cusip := t.lines.getD t.line_idx ""
      let t1 : Tok := { t with line_idx := t.line_idx + 1 }
      if strStarts "3825" cusip || strStarts "0207" cusip then some (cusip, t1)
      else findCusipAux fuel t1
    else none

def find_cusip (t : Tok) : Option (String × Tok) :=
  findCusipAux (t.lines.length - t.line_idx) t

/-- next_token: refill the token buffer from the current line when empty
(split on single spaces, keeping empty tokens, as Python split(' ') does),
then pop the first token; None past end of stream. -/
def next_token (t : Tok) : Option String × Tok :=
  match t.tokens with
  | tok :: rest => (some tok, { t with tokens := rest })
  | [] =>
    if t.line_idx < t.lines.length then
      match pySplit ' ' (t.lines.getD t.line_idx "") with
      | tok :: rest =>
        (some tok, { t with line_idx := t.line_idx + 1, tokens := rest })
      | [] => (none, t)   -- pySplit never returns an empty list
    else (none, t)

def cur_string_tokens_available (t : Tok) : Bool :=
  decide (0 < t.tokens.length)

/-- Parsed record (class Record).  fmv is never assigned by
parse1099Form and stays None. -/
structure Record where
  quantity : ℚ
  symbol : String
  acquisition_date : SDate
  sale_date : SDate
  fmv : Option ℚ
  cusip : String
  total_reported_basis : ℚ
  total_reported_wash : Option ℚ
  total_reported_proceeds : ℚ
deriving DecidableEq

/-- First wash junction (source lines 179-187): token after basis; if it
is the noncovered flag X there is no wash amount (the empty string),
otherwise that token is the wash amount and the next token must be X. -/
def washJunction1 (t : Tok) : Except ParseErr (Option String × Tok) :=
  let p := next_token t
  if p.1 = some "X" then .ok (some "", p.2)
  else
    let p2 := next_token p.2
    if p2.1 = some "X" then .ok (p.1, p2.2)
    else .error (genError p2.2)

/-- Second wash junction (source lines 190-194): token after the sale
date; if it is not GROSS it replaces the wash amount and the token after
it must be GROSS. -/
def washJunction2 (wash : Option String) (t : Tok) :
    Except ParseErr (Option String × Tok) :=
  let p := next_token t
  if p.1 = some "GROSS" then .ok (wash, p.2)
  else
    let p2 := next_token p.2
    if p2.1 = some "GROSS" then .ok (p.1, p2.2)
    else .error (genError p2.2)

/-- Python truthiness of the wash token: None and the empty string mean
no wash amount. -/
def truthy : Option String → Bool
  | none => false
  | some s => ¬ s.isEmpty

/-- One record body after the cusip line has been consumed
(source lines 164-207).  Any structural mismatch or failing numeric/date
conversion aborts (uncaught exceptions included). -/
def parseRecordBody (cusip : String) (t : Tok) : Except ParseErr (Record × Tok) :=
  let pns := next_token t
  let psh := next_token pns.2
  if psh.1 = some "SHARES" then
    let pof := next_token psh.2
    if pof.1 = some "OF" then
      match pns.1 with
      | none => .error (genError pof.2)        -- float(None) raises
      | some nss =>
        match parseDecimal nss with            -- float(num_shares)
        | none => .error (genError pof.2)
        | some q =>
          let psym := next_token pof.2
          match psym.1 with
          | none => .error (genError psym.2)
          | some sym =>
            if (¬ sym = "GOOG" ∧ ¬ sym = "GOOGL") ∨ q ≤ 0 then
              .error (genError psym.2)
            else
              let pacq := next_token psym.2
              let pprc := next_token pacq.2
              let pbas := next_token pprc.2
              match washJunction1 pbas.2 with
              | .error e => .error e
              | .ok (wash1, t8) =>
                let psale := next_token t8
                match washJunction2 wash1 psale.2 with
                | .error e => .error e
                | .ok (wash2, t10) =>
                  if cur_string_tokens_available t10 then
                    .error (genError t10)
                  else
                    match psale.1 with
                    | none => .error (genError t10)     -- strptime(None)
                    | some sd =>
                    match parseDate sd with
                    | none => .error (genError t10)
                    | some saleD =>
                    match pprc.1 with
                    | none => .error (genError t10)     -- None.replace
                    | some prcS =>
                    match parseDecimal (stripCommas prcS) with
                    | none => .error (genError t10)
                    | some prc =>
                    match pbas.1 with
                    | none => .error (genError t10)
                    | some basS =>
                    match parseDecimal (stripCommas basS) with
                    | none => .error (genError t10)
                    | some bas =>
                    match (if truthy wash2 then
                        some (parseDecimal (stripCommas (wash2.getD "")))
                      else none) with
                    | some none => .error (genError t10)
                    | washQ =>
                    match pacq.1 with
                    | none => .error (genError t10)
                    | some ad =>
                    match parseDate ad with
                    | none => .error (genError t10)
                    | some acqD =>
                      .ok ({ quantity := q, symbol := sym,
                             acquisition_date := acqD, sale_date := saleD,
                             fmv := none, cusip := cusip,
                             total_reported_basis := bas,
                             total_reported_wash := washQ.bind id,
                             total_reported_proceeds := prc }, t10)
    else .error (genError pof.2)
  else .error (genError psh.2)

/-- The while loop of parse1099Form, with its running totals.  Each
iteration consumes at least one line, so fuel lines.length + 1 always
suffices; the fuel-exhaustion branch is unreachable. -/
def parseLoop : Nat → Tok → List Record → ℚ → ℚ → ℚ →
    Except ParseErr (List Record × ℚ × ℚ × ℚ)
  | 0, t, _, _, _, _ => .error (genError t)
  | fuel + 1, t, recs, tp, tb, tw =>
    match find_cusip t with
    | none => .ok (recs, tp, tb, tw)
    | some (cusip, t1) =>
      match parseRecordBody cusip t1 with
      | .error e => .error e
      | .ok (r, t2) =>
        parseLoop fuel t2 (recs ++ [r])
          (tp + r.total_reported_proceeds)
          (tb + r.total_reported_basis)
          (tw + r.total_reported_wash.getD 0)

/-- parse1099Form: strip all input lines, then run the record loop with
zero totals. -/
def parse1099Form (inputLines : List String) :
    Except ParseErr (List Record × ℚ × ℚ × ℚ) :=
  let lines := inputLines.map pyStrip
  parseLoop (lines.length + 1) ⟨lines, 0, []⟩ [] 0 0 0

/-! ### Formatter (Record.txf_records) -/

/-- Round half to even at the given rational, as "%.2f" does. -/
def rhe (n : ℚ) : Int :=
  let f := Rat.floor n
  if n - mkRat f 1 < mkRat 1 2 then f
  else if mkRat 1 2 < n - mkRat f 1 then f + 1
  else if f % 2 = 0 then f else f + 1

/-- "%.2f" rendering of an amount. -/
def fmt2 (q : ℚ) : String :=
  let c := rhe (q * mkRat 100 1)
  let m := c.natAbs
  (if c < 0 then "-" else "") ++ toString (m / 100) ++ "." ++ pad2 (m % 100)

def padZeros (k : Nat) (s : String) : String :=
  String.mk (List.replicate (k - s.length) '0') ++ s

/-- str() of a Python float holding an exact decimal value. -/
def pyFloatStr (q : ℚ) : String :=
  match (List.range 31).find? (fun k => (q * mkRat (10 ^ k) 1).den = 1) with
  | some 0 => (if q < 0 then "-" else "") ++ toString q.num.natAbs ++ ".0"
  | some k =>
    let n := (q * mkRat (10 ^ k) 1).num.natAbs
    (if q < 0 then "-" else "") ++ toString (n / 10 ^ k) ++ "." ++
      padZeros k (toString (n % 10 ^ k))
  | none => toString q.num ++ " over " ++ toString q.den

def compute_total_basis (r : Record) : ℚ :=
  match r.fmv with
  | some f => if f = 0 then r.total_reported_basis else f * r.quantity
  | none => r.total_reported_basis

/-- Empty when the wash amount is absent or zero (Python truthiness of
Decimal), otherwise "%.2f". -/
def compute_total_wash (r : Record) : String :=
  match r.total_reported_wash with
  | none => ""
  | some w => if w = 0 then "" else fmt2 w

/-- The lines of one TXF block emitted for a record (the format string at
source line 69, split at its newlines). -/
def txfRecordLines (r : Record) : List String :=
  ["TD", "N715", "C1", "L1",
   "P" ++ pyFloatStr r.quantity ++ " " ++ r.symbol,
   "D" ++ dateStr r.acquisition_date,
   "D" ++ dateStr r.sale_date,
   "$" ++ fmt2 (compute_total_basis r),
   "$" ++ fmt2 r.total_reported_proceeds,
   "$" ++ compute_total_wash r,
   "^"]

/-- Record.txf_records: the header followed by one block per record. -/
def txf_records (today : String) (records : List Record) : String :=
  "V042\nA quick and dirty TXF script\nD" ++ today ++ "\n^\n" ++
    String.join (records.map
      (fun r => String.join ((txfRecordLines r).map (fun l => l ++ "\n"))))

/-! ### __main__ driver -/

def saleLe (a b : Record) : Prop :=
  dateLe a.sale_date b.sale_date

instance : DecidableRel saleLe := fun a b => by
  unfold saleLe; exact inferInstance

/-- records.sort(key=lambda x: x.sale_date): Python sort is stable, so it
is modelled by a stable sort with respect to chronological sale date. -/
def sortRecs (rs : List Record) : List Record :=
  List.insertionSort saleLe rs

instance : IsTotal Record saleLe :=
  ⟨fun a b => by unfold saleLe dateLe; omega⟩

instance : IsTrans Record saleLe :=
  ⟨fun a b c h1 h2 => by unfold saleLe dateLe at *; omega⟩


/-- The tail of __main__: parse, sort, abort when no records were found,
write the file only for a .txf output name. -/
def mainB (inputLines : List String) (outfilename today : String) :
    Except String String :=
  match parse1099Form inputLines with
  | .error e =>
    .error ("ERROR: Parsing input line " ++ toString e.line ++ ": " ++ e.text)
  | .ok (records, _, _, _) =>
    let records := sortRecs records
    if records.length = 0 then .error "No records found"
    else if strEnds ".txf" outfilename then .ok (txf_records today records)
    else .error "Unexpected output file format"

/-- Sum of the reported proceeds of a record list. -/
def sumProc (rs : List Record) : ℚ :=
  (rs.map (fun r => r.total_reported_proceeds)).sum

/-- Sum of the reported bases of a record list. -/
def sumBasis (rs : List Record) : ℚ :=
  (rs.map (fun r => r.total_reported_basis)).sum

/-- Sum of the reported wash amounts, an absent wash contributing zero. -/
def sumWash (rs : List Record) : ℚ :=
  (rs.map (fun r => r.total_reported_wash.getD 0)).sum

end Taxform

/-- Whether an Except is an error (used to state abort behaviour). -/
def isErrE {ε α : Type} : Except ε α → Bool
  | .error _ => true
  | .ok _ => false

instance {ε α : Type} [DecidableEq ε] [DecidableEq α] :
    DecidableEq (Except ε α) := fun a b =>
  match a, b with
  | .error e, .error f =>
    if h : e = f then isTrue (by rw [h])
    else isFalse (by intro hh; injection hh; exact h (by assumption))
  | .ok x, .ok y =>
    if h : x = y then isTrue (by rw [h])
    else isFalse (by intro hh; injection hh; exact h (by assumption))
  | .error _, .ok _ => isFalse (by intro hh; exact Except.noConfusion hh)
  | .ok _, .error _ => isFalse (by intro hh; exact Except.noConfusion hh)

/-! ## Variant A: convert-1099B-2022.py (checkbox-driven layout)

The regular expressions of the source are modelled by recursive-descent
matchers over character lists.  For these patterns maximal munch agrees
with the backtracking regex engine: every repeated class is followed by a
literal that no element of the class can start. -/

namespace Convert2022

/-- The _CUSIPS registry as the partial map symbol -> cusip. -/
def CUSIPS : String → String :=
  fun s => if s = "GOOGL" then "02079K305"
    else if s = "GOOG" then "02079K107" else ""

/-- Membership of a line in _CUSIPS.values(). -/
def isCusip (line : String) : Bool :=
  line = "02079K305" || line = "02079K107"

/-- The _TXF_CATEGORIES registry: Box B (short-term noncovered) and
Box E (long-term noncovered). -/
def TXF_CATEGORIES : String → Option Nat :=
  fun s => if s = "B" then some 711 else if s = "E" then some 713 else none

/-- re.search for the marker pattern: leftmost occurrence of
Box B checked / Box E checked, returning the captured letter. -/
def markerScan : List Char → Option String
  | [] => none
  | c :: rest =>
    if ("Box B checked".toList).isPrefixOf (c :: rest) then some "B"
    else if ("Box E checked".toList).isPrefixOf (c :: rest) then some "E"
    else markerScan rest

def markerMatch (line : String) : Option String :=
  markerScan line.toList

/-- One or more digits, maximal munch; no capture.  Rejects when the
first character is not a digit. -/
def munchDigits1 (cs : List Char) : Option (List Char) :=
  if (cs.takeWhile Char.isDigit).isEmpty then none
  else some (cs.dropWhile Char.isDigit)

/-- The quantity pattern d+(.d+)? with its optional fraction. -/
def munchNumber (cs : List Char) : Option (List Char) :=
  match munchDigits1 cs with
  | none => none
  | some rest =>
    match rest with
    | '.' :: rest2 =>
      if (rest2.takeWhile Char.isDigit).isEmpty then some rest
      else some (rest2.dropWhile Char.isDigit)
    | _ => some rest

/-- The amount pattern [d,]+(.d+) with a mandatory fraction, capturing
the matched substring. -/
def munchAmount (cs : List Char) : Option (String × List Char) :=
  let ds := cs.takeWhile (fun c => c.isDigit || c = ',')
  if ds.isEmpty then none
  else
    match cs.dropWhile (fun c => c.isDigit || c = ',') with
    | '.' :: rest2 =>
      let fs := rest2.takeWhile Char.isDigit
      if fs.isEmpty then none
      else some (String.mk (ds ++ '.' :: fs), rest2.dropWhile Char.isDigit)
    | _ => none

/-- One or more whitespace characters. -/
def munchSpaces1 (cs : List Char) : Option (List Char) :=
  if (cs.takeWhile Char.isWhitespace).isEmpty then none
  else some (cs.dropWhile Char.isWhitespace)

/-- A literal string. -/
def munchLit (lit : String) (cs : List Char) : Option (List Char) :=
  if lit.toList.isPrefixOf cs then some (cs.drop lit.toList.length)
  else none

/-- The date pattern dd/dd/dddd, capturing the matched substring. -/
def munchDate (cs : List Char) : Option (String × List Char) :=
  match cs with
  | a :: b :: '/' :: c :: d :: '/' :: e :: f :: g :: h :: rest =>
    if [a, b, c, d, e, f, g, h].all Char.isDigit then
      some (String.mk [a, b, '/', c, d, '/', e, f, g, h], rest)
    else none
  | _ => none

/-- The optional wash group: whitespace, an amount, whitespace, X at end
of line (the greedy first attempt of the regex engine). -/
def washTry (cs : List Char) : Option String :=
  match munchSpaces1 cs with
  | none => none
  | some w1 =>
    match munchAmount w1 with
    | none => none
    | some (w, w2) =>
      match munchSpaces1 w2 with
      | none => none
      | some w3 =>
        match munchLit "X" w3 with
        | none => none
        | some w4 => if w4.isEmpty then some w else none

/-- The tail [\s+ amount] \s+ X $ shared by the combined pattern and the
line-3 pattern: proceeds, basis, an optional wash amount, then the
mandatory noncovered flag X at end of line. -/
def amountsAndFlag (cs : List Char) :
    Option (String × String × Option String) :=
  match munchSpaces1 cs with
  | none => none
  | some r1 =>
    match munchAmount r1 with
    | none => none
    | some (prc, r2) =>
      match munchSpaces1 r2 with
      | none => none
      | some r3 =>
        match munchAmount r3 with
        | none => none
        | some (bas, r4) =>
          -- optional wash group first (greedy), falling back to no wash
          match washTry r4 with
          | some w => some (prc, bas, some w)
          | none =>
            match munchSpaces1 r4 with
            | none => none
            | some n1 =>
              match munchLit "X" n1 with
              | none => none
              | some n2 =>
                if n2.isEmpty then some (prc, bas, none) else none

/-- SHARES? OF (GOOGL?) after the quantity: shared head of the combined
and line-2 patterns, returning the captured symbol. -/
def sharesOfSymbol (cs : List Char) : Option (String × List Char) :=
  match munchLit " SHARE" cs with
  | none => none
  | some r1 =>
    let r2 := if r1.head? = some 'S' then r1.tail else r1
    match munchLit " OF GOOG" r2 with
    | none => none
    | some r3 =>
      if r3.head? = some 'L' then some ("GOOGL", r3.tail)
      else some ("GOOG", r3)

/-- The combined-line pattern (source lines 113-120): quantity, symbol,
acquisition date, proceeds, basis, optional wash, flag, all on one line. -/
def combinedMatch (line : String) :
    Option (String × String × String × String × Option String) :=
  match munchNumber line.toList with
  | none => none
  | some r1 =>
    match sharesOfSymbol r1 with
    | none => none
    | some (sym, r2) =>
      match munchLit " " r2 with
      | none => none
      | some r3 =>
        match munchDate r3 with
        | none => none
        | some (acq, r4) =>
          match amountsAndFlag r4 with
          | none => none
          | some (prc, bas, wash) => some (sym, acq, prc, bas, wash)

/-- The line-2 pattern (source line 135): quantity SHARES? OF symbol,
nothing else on the line. -/
def sharesMatch (line : String) : Option String :=
  match munchNumber line.toList with
  | none => none
  | some r1 =>
    match sharesOfSymbol r1 with
    | none => none
    | some (sym, r2) => if r2.isEmpty then some sym else none

/-- The line-3 pattern (source lines 149-155): acquisition date,
proceeds, basis, optional wash, flag. -/
def line3Match (line : String) :
    Option (String × String × String × Option String) :=
  match munchDate line.toList with
  | none => none
  | some (acq, r1) =>
    match amountsAndFlag r1 with
    | none => none
    | some (prc, bas, wash) => some (acq, prc, bas, wash)

/-- The line-4 pattern (source line 167): sale date, one whitespace
character, GROSS at end of line. -/
def line4Match (line : String) : Option String :=
  match munchDate line.toList with
  | none => none
  | some (sale, r1) =>
    match r1 with
    | c :: rest =>
      if c.isWhitespace then
        match munchLit "GROSS" rest with
        | none => none
        | some r2 => if r2.isEmpty then some sale else none
      else none
    | _ => none

/-- Fatal outcomes of the conversion: sys.exit with a message, or the
uncaught IndexError of reading past the line list. -/
inductive AErr where
  | exitMsg (msg : String)
  | indexError
deriving DecidableEq

/-- The fields of one record, as the matched strings of the source. -/
structure ARecord where
  symbol : String
  desc : String
  acq : String
  sale : String
  proceeds : String
  basis : String
  wash : Option String
deriving DecidableEq

/-- Parsing one record whose cusip line sits at index i (source lines
106-172), after the guard lines.length >= i + 3.  Returns the fields and
whether the combined-line variant matched (the cursor then advances by 3
instead of 4). -/
def parseARecord (lines : List String) (i : Nat) (cusip : String) :
    Except AErr (ARecord × Bool) :=
  let line2 := lines.getD (i + 1) ""
  match combinedMatch line2 with
  | some (sym, acq, prc, bas, wash) =>
    if ¬ CUSIPS sym = cusip then
      .error (.exitMsg ("Error unexpected (symbol, CUSIP) pair: (" ++ sym ++
        ", " ++ cusip ++ ")"))
    else
      let line4 := lines.getD (i + 2) ""
      match line4Match line4 with
      | none => .error (.exitMsg ("Error parsing input line " ++
          toString (i + 3) ++ ": " ++ line4))
      | some sale =>
        .ok ({ symbol := sym, desc := line2, acq := acq, sale := sale,
               proceeds := prc, basis := bas, wash := wash }, true)
  | none =>
    match sharesMatch line2 with
    | none => .error (.exitMsg ("Error parsing input line " ++
        toString (i + 2) ++ ": " ++ line2))
    | some sym =>
      if ¬ CUSIPS sym = cusip then
        .error (.exitMsg ("Error unexpected (symbol, CUSIP) pair: (" ++ sym ++
          ", " ++ cusip ++ ")"))
      else
        let line3 := lines.getD (i + 2) ""
        match line3Match line3 with
        | none => .error (.exitMsg ("Error parsing input line " ++
            toString (i + 3) ++ ": " ++ line3))
        | some (acq, prc, bas, wash) =>
          match lines.get? (i + 3) with
          | none => .error .indexError    -- lines[input_line] out of range
          | some line4 =>
            match line4Match line4 with
            | none => .error (.exitMsg ("Error parsing input line " ++
                toString (i + 4) ++ ": " ++ line4))
            | some sale =>
              .ok ({ symbol := sym, desc := line2, acq := acq, sale := sale,
                     proceeds := prc, basis := bas, wash := wash }, false)

/-! ### Totals accumulator and block emission -/

/-- dataclass Totals, one triple of exact decimal sums. -/
structure Totals where
  proceeds : ℚ
  basis : ℚ
  wash : ℚ
deriving DecidableEq

/-- collections.defaultdict(Totals): every key starts at zero. -/
def TotalsMap : Type := String → Totals

def zeroTotals : TotalsMap := fun _ => ⟨0, 0, 0⟩

/-- The three += statements at source lines 174-177: one update of the
category's triple per record; an absent wash adds nothing. -/
def addA (m : TotalsMap) (cat : String) (f : ARecord) : TotalsMap :=
  fun k =>
    if k = cat then
      ⟨(m cat).proceeds + decimalOf f.proceeds,
       (m cat).basis + decimalOf f.basis,
       (m cat).wash + (match f.wash with
         | some w => decimalOf w
         | none => 0)⟩
    else m k

/-- The aggregation over a record list, starting from zero. -/
def aggregateA (rs : List (String × ARecord)) : TotalsMap :=
  rs.foldl (fun m p => addA m p.1 p.2) zeroTotals

/-- A TxfRecord: the ordered (op, value) field list of one block. -/
abbrev Block : Type := List (String × String)

/-- The header block written before the loop (source lines 62-66). -/
def headerBlock (today : String) : Block :=
  [("V", "042"), ("A", "Self"), ("D", today)]

/-- The record block built at source lines 189-198. -/
def mkBlock (cat : String) (f : ARecord) : Block :=
  [("T", "D"),
   ("N", toString ((TXF_CATEGORIES cat).getD 0)),
   ("P", f.desc),
   ("D", f.acq),
   ("D", f.sale),
   ("$", f.basis),
   ("$", f.proceeds)] ++
  (match f.wash with
   | some w => [("$", w)]
   | none => [])

/-- Result of a run: everything printed to the output file (the header,
then the record blocks emitted so far) plus the totals, and the fatal
error if one stopped the loop. -/
structure AOut where
  blocks : List Block
  totals : TotalsMap
  err : Option AErr

/-- The main while loop (source lines 70-199).  Fuel lines.length + 1
always suffices: every iteration strictly advances input_line. -/
def runALoop : Nat → List String → Nat → Option String → TotalsMap →
    List Block → AOut
  | 0, _, _, _, totals, blocks => ⟨blocks, totals, some .indexError⟩
  | fuel + 1, lines, i, cat, totals, blocks =>
    if i < lines.length then
      let line := lines.getD i ""
      match markerMatch line with
      | some c => runALoop fuel lines (i + 1) (some c) totals blocks
      | none =>
        if ¬ isCusip line then runALoop fuel lines (i + 1) cat totals blocks
        else
          match cat with
          | none => ⟨blocks, totals, some (.exitMsg
              "Error: could not determine applicable Form 8949 checkbox")⟩
          | some c =>
            if lines.length < i + 3 then
              ⟨blocks, totals, some (.exitMsg
                "Error: insufficient content at end of file")⟩
            else
              match parseARecord lines i (pyUpper line) with
              | .error e => ⟨blocks, totals, some e⟩
              | .ok (f, combined) =>
                runALoop fuel lines (if combined then i + 3 else i + 4)
                  (some c) (addA totals c f) (blocks ++ [mkBlock c f])
    else ⟨blocks, totals, none⟩

/-- The whole conversion loop, started with no category and zero totals;
its blocks field holds the record blocks emitted before the run ended. -/
def runA (lines : List String) : AOut :=
  runALoop (lines.length + 1) lines 0 none zeroTotals []

/-- Everything printed to the output file: the file is opened and the
header written before the loop runs, so it exists (with at least the
header) even on the error paths. -/
def fileBlocks (lines : List String) (today : String) : List Block :=
  headerBlock today :: (runA lines).blocks

/-- The records of an accepted list carrying a given classification key,
in input order. -/
def keyFields (rs : List (String × ARecord)) (k : String) : List ARecord :=
  (rs.filter (fun p => p.1 == k)).map Prod.snd

def sumProcA (fs : List ARecord) : ℚ :=
  (fs.map (fun f => decimalOf f.proceeds)).sum

def sumBasisA (fs : List ARecord) : ℚ :=
  (fs.map (fun f => decimalOf f.basis)).sum

/-- Wash contribution of one record: zero when absent. -/
def washAmt (f : ARecord) : ℚ :=
  match f.wash with
  | some w => decimalOf w
  | none => 0

def sumWashA (fs : List ARecord) : ℚ :=
  (fs.map washAmt).sum

/-- The N field of an emitted block is one of the two registry codes. -/
def goodBlock (b : Block) : Prop :=
  b.getD 1 ("", "") = ("N", "711") ∨ b.getD 1 ("", "") = ("N", "713")

end Convert2022

/-! ## Concrete inputs used by witnesses and counterexamples -/

/-- The standard four-line record of the source comments. -/
def stdLines : List String :=
  ["02079K107", "2 SHARES OF GOOG", "01/27/2020 2,933.94 2,933.42 X",
   "02/06/2020 GROSS"]

/-- The record parse1099Form produces from stdLines. -/
def stdRecord : Taxform.Record :=
  { quantity := 2, symbol := "GOOG", acquisition_date := ⟨1, 27, 2020⟩,
    sale_date := ⟨2, 6, 2020⟩, fmv := none, cusip := "02079K107",
    total_reported_basis := mkRat 146671 50, total_reported_wash := none,
    total_reported_proceeds := mkRat 146697 50 }

/-- stdLines with an identifier that is not in the registry (prefix 0207
but not a registry member) while the inline symbol is GOOG. -/
def badCusipLines : List String :=
  ["02071111", "2 SHARES OF GOOG", "01/27/2020 2,933.94 2,933.42 X",
   "02/06/2020 GROSS"]

def badCusipRecord : Taxform.Record :=
  { stdRecord with cusip := "02071111" }

/-- stdLines with a negative proceeds token. -/
def negLines : List String :=
  ["02079K107", "2 SHARES OF GOOG", "01/27/2020 -5.00 2,933.42 X",
   "02/06/2020 GROSS"]

def negRecord : Taxform.Record :=
  { stdRecord with total_reported_proceeds := mkRat (-5) 1 }

/-- A checkbox-variant input whose quantity token is 0. -/
def qty0Lines : List String :=
  ["Box E checked", "02079K107", "0 SHARES OF GOOG",
   "07/25/2019 4,498.54 3,413.43 X", "08/06/2020 GROSS"]

/-- The block the checkbox variant emits for qty0Lines. -/
def qty0Block : Convert2022.Block :=
  [("T", "D"), ("N", "713"), ("P", "0 SHARES OF GOOG"), ("D", "07/25/2019"),
   ("D", "08/06/2020"), ("$", "3,413.43"), ("$", "4,498.54")]

/-- Tokenizer states pointing at prepared token buffers. -/
def tokState (ts : List String) : Taxform.Tok := ⟨[], 0, ts⟩

/-! ## Helper lemmas -/

namespace Taxform

/-- A record accepted by the body parser has positive quantity and
carries the cusip it was called with. -/
theorem parseRecordBody_ok {cusip : String} {t : Tok} {r : Record} {t' : Tok}
    (h : parseRecordBody cusip t = .ok (r, t')) :
    0 < r.quantity ∧ r.cusip = cusip := by
  simp only [parseRecordBody] at h
  repeat' split at h
  all_goals try exact Except.noConfusion h
  all_goals injection h with h1
  all_goals injection h1 with h2 h3
  all_goals subst h2
  all_goals refine ⟨?_, rfl⟩
  all_goals simp_all [not_or]

/-- The loop appends its newly parsed records and adds exactly their
sums to the running totals. -/
theorem parseLoop_spec : ∀ (fuel : Nat) (t : Tok) (recs : List Record)
    (tp tb tw : ℚ) (out : List Record × ℚ × ℚ × ℚ),
    parseLoop fuel t recs tp tb tw = .ok out →
    ∃ new, out.1 = recs ++ new ∧ out.2.1 = tp + sumProc new ∧
      out.2.2.1 = tb + sumBasis new ∧ out.2.2.2 = tw + sumWash new := by
  intro fuel
  induction fuel with
  | zero => intro t recs tp tb tw out h; exact Except.noConfusion h
  | succ n ih =>
    intro t recs tp tb tw out h
    rw [parseLoop] at h
    split at h
    · injection h with h1
      subst h1
      exact ⟨[], by simp [sumProc, sumBasis, sumWash]⟩
    · split at h
      · exact Except.noConfusion h
      · rename_i cusip t1 hfc r t2 hbody
        obtain ⟨new, h1, h2, h3, h4⟩ := ih _ _ _ _ _ _ h
        refine ⟨r :: new, ?_, ?_, ?_, ?_⟩ <;>
          simp [h1, h2, h3, h4, sumProc, sumBasis, sumWash] <;> ring

/-- Every record in a successful parse result has positive quantity. -/
theorem parseLoop_pos : ∀ (fuel : Nat) (t : Tok) (recs : List Record)
    (tp tb tw : ℚ) (out : List Record × ℚ × ℚ × ℚ),
    (∀ r ∈ recs, 0 < r.quantity) →
    parseLoop fuel t recs tp tb tw = .ok out →
    ∀ r ∈ out.1, 0 < r.quantity := by
  intro fuel
  induction fuel with
  | zero => intro t recs tp tb tw out _ h; exact Except.noConfusion h
  | succ n ih =>
    intro t recs tp tb tw out hrecs h
    rw [parseLoop] at h
    split at h
    · injection h with h1; subst h1; exact hrecs
    · split at h
      · exact Except.noConfusion h
      · rename_i cusip t1 hfc r t2 hbody
        refine ih _ _ _ _ _ _ ?_ h
        intro x hx
        rcases List.mem_append.mp hx with hx | hx
        · exact hrecs x hx
        · rcases List.mem_singleton.mp hx with rfl
          exact (parseRecordBody_ok hbody).1

end Taxform

/-- Unsigned decimal literals have non-negative values. -/
theorem parseUnsignedDecimal_nonneg {cs : List Char} {q : ℚ}
    (h : parseUnsignedDecimal cs = some q) : 0 ≤ q := by
  simp only [parseUnsignedDecimal] at h
  split at h
  · split at h
    · exact Option.noConfusion h
    · injection h with h1; subst h1
      exact Rat.mkRat_nonneg (Int.natCast_nonneg _) _
  · split at h
    · injection h with h1; subst h1
      exact Rat.mkRat_nonneg (Int.natCast_nonneg _) _
    · exact Option.noConfusion h
  · exact Option.noConfusion h

/-- A string of digits, commas and dots (the amount-pattern language)
never produces a negative value. -/
theorem decimalOf_nonneg {s : String}
    (h : ∀ c ∈ s.toList, c.isDigit ∨ c = ',' ∨ c = '.') : 0 ≤ decimalOf s := by
  unfold decimalOf
  cases hp : parseDecimal (stripCommas s) with
  | none => simp
  | some q =>
    simp only [Option.getD_some]
    unfold parseDecimal at hp
    split at hp
    · rename_i cs heq
      exfalso
      have hm : '-' ∈ (stripCommas s).toList := by
        rw [heq]; exact List.mem_cons_self _ _
      unfold stripCommas at hm
      have hm2 : '-' ∈ s.toList := (List.mem_filter.mp hm).1
      rcases h _ hm2 with h1 | h1 | h1 <;> simp_all
    · exact parseUnsignedDecimal_nonneg hp
    · exact parseUnsignedDecimal_nonneg hp

namespace Convert2022

/-- Every character of a munchAmount capture is a digit, comma or dot. -/
theorem munchAmount_chars {cs : List Char} {s : String} {r : List Char}
    (h : munchAmount cs = some (s, r)) :
    ∀ c ∈ s.toList, c.isDigit ∨ c = ',' ∨ c = '.' := by
  simp only [munchAmount] at h
  split at h
  · exact Option.noConfusion h
  · split at h
    · split at h
      · exact Option.noConfusion h
      · injection h with h1
        injection h1 with h2 h3
        subst h2
        intro c hc
        simp only [String.toList, String.data] at hc
        rcases List.mem_append.mp hc with hc | hc
        · have := List.all_eq_true.mp (List.all_takeWhile
            (p := fun c => c.isDigit || c = ',') (l := cs)) c hc
          rcases (Bool.or_eq_true _ _).mp this with h' | h'
          · exact Or.inl h'
          · exact Or.inr (Or.inl (by simpa using h'))
        · rcases List.mem_cons.mp hc with rfl | hc
          · exact Or.inr (Or.inr rfl)
          · exact Or.inl (List.all_eq_true.mp (List.all_takeWhile
              (p := Char.isDigit) (l := _)) c hc)
    · exact Option.noConfusion h

/-- A munchAmount capture has a non-negative decimal value. -/
theorem munchAmount_nonneg {cs : List Char} {s : String} {r : List Char}
    (h : munchAmount cs = some (s, r)) : 0 ≤ decimalOf s :=
  decimalOf_nonneg (munchAmount_chars h)

/-- The marker scan only ever captures B or E. -/
theorem markerScan_mem : ∀ (cs : List Char) (c : String),
    markerScan cs = some c → c = "B" ∨ c = "E" := by
  intro cs
  induction cs with
  | nil => intro c h; exact Option.noConfusion h
  | cons a rest ih =>
    intro c h
    rw [markerScan] at h
    split at h
    · injection h with h1; exact Or.inl h1.symm
    · split at h
      · injection h with h1; exact Or.inr h1.symm
      · exact ih c h

/-- A wash capture of the optional group is non-negative. -/
theorem washTry_nonneg {cs : List Char} {w : String}
    (h : washTry cs = some w) : 0 ≤ decimalOf w := by
  simp only [washTry] at h
  repeat' split at h
  all_goals try exact Option.noConfusion h
  injection h with h1
  subst h1
  exact munchAmount_nonneg (by assumption)

/-- All amounts captured by the shared tail pattern are non-negative. -/
theorem amountsAndFlag_nonneg {cs : List Char} {prc bas : String}
    {w : Option String} (h : amountsAndFlag cs = some (prc, bas, w)) :
    0 ≤ decimalOf prc ∧ 0 ≤ decimalOf bas ∧
      ∀ ws, w = some ws → 0 ≤ decimalOf ws := by
  simp only [amountsAndFlag] at h
  repeat' split at h
  all_goals try exact Option.noConfusion h
  all_goals injection h with h1
  all_goals injection h1 with h2 h3
  all_goals injection h3 with h4 h5
  all_goals subst h2
  all_goals subst h4
  all_goals subst h5
  · exact ⟨munchAmount_nonneg (by assumption),
      munchAmount_nonneg (by assumption),
      fun ws hws => by cases hws; exact washTry_nonneg (by assumption)⟩
  · exact ⟨munchAmount_nonneg (by assumption),
      munchAmount_nonneg (by assumption),
      fun ws hws => Option.noConfusion hws⟩

/-- Amounts captured by the combined-line pattern are non-negative. -/
theorem combinedMatch_nonneg {line : String} {sym acq prc bas : String}
    {w : Option String}
    (h : combinedMatch line = some (sym, acq, prc, bas, w)) :
    0 ≤ decimalOf prc ∧ 0 ≤ decimalOf bas ∧
      ∀ ws, w = some ws → 0 ≤ decimalOf ws := by
  simp only [combinedMatch] at h
  repeat' split at h
  all_goals try exact Option.noConfusion h
  injection h with h1
  injection h1 with h2 h3
  injection h3 with h4 h5
  injection h5 with h6 h7
  injection h7 with h8 h9
  subst h6; subst h8; subst h9
  exact amountsAndFlag_nonneg (by assumption)

/-- Amounts captured by the line-3 pattern are non-negative. -/
theorem line3Match_nonneg {line : String} {acq prc bas : String}
    {w : Option String}
    (h : line3Match line = some (acq, prc, bas, w)) :
    0 ≤ decimalOf prc ∧ 0 ≤ decimalOf bas ∧
      ∀ ws, w = some ws → 0 ≤ decimalOf ws := by
  simp only [line3Match] at h
  repeat' split at h
  all_goals try exact Option.noConfusion h
  injection h with h1
  injection h1 with h2 h3
  injection h3 with h4 h5
  injection h5 with h6 h7
  subst h4; subst h6; subst h7
  exact amountsAndFlag_nonneg (by assumption)

/-- A record accepted by the line parser has a symbol consistent with the
cusip it was called with, and non-negative amounts. -/
theorem parseARecord_ok {lines : List String} {i : Nat} {cusip : String}
    {f : ARecord} {b : Bool}
    (h : parseARecord lines i cusip = .ok (f, b)) :
    CUSIPS f.symbol = cusip ∧ 0 ≤ decimalOf f.proceeds ∧
      0 ≤ decimalOf f.basis ∧ ∀ ws, f.wash = some ws → 0 ≤ decimalOf ws := by
  simp only [parseARecord] at h
  repeat' split at h
  all_goals try exact Except.noConfusion h
  all_goals injection h with h1
  all_goals injection h1 with h2 h3
  all_goals subst h2
  all_goals refine ⟨not_not.mp (by assumption), ?_, ?_, ?_⟩
  · simpa using (combinedMatch_nonneg (by assumption)).1
  · simpa using (combinedMatch_nonneg (by assumption)).2.1
  · simpa using (combinedMatch_nonneg (by assumption)).2.2
  · simpa using (line3Match_nonneg (by assumption)).1
  · simpa using (line3Match_nonneg (by assumption)).2.1
  · simpa using (line3Match_nonneg (by assumption)).2.2

/-- Folding addA over a record list adds exactly the per-key sums to
every key of the starting map. -/
theorem aggregateA_foldl : ∀ (rs : List (String × ARecord)) (m : TotalsMap)
    (k : String),
    (rs.foldl (fun m p => addA m p.1 p.2) m) k =
      ⟨(m k).proceeds + sumProcA (keyFields rs k),
       (m k).basis + sumBasisA (keyFields rs k),
       (m k).wash + sumWashA (keyFields rs k)⟩ := by
  intro rs
  induction rs with
  | nil =>
    intro m k
    simp [keyFields, sumProcA, sumBasisA, sumWashA]
  | cons p rs ih =>
    intro m k
    obtain ⟨c, f⟩ := p
    have step : List.foldl (fun m p => addA m p.1 p.2) m ((c, f) :: rs) =
        List.foldl (fun m p => addA m p.1 p.2) (addA m c f) rs := rfl
    rw [step, ih]
    by_cases hk : c = k
    · subst hk
      simp [keyFields, addA, sumProcA, sumBasisA, sumWashA, washAmt]
      refine ⟨by ring, by ring, ?_⟩
      cases hw : f.wash
      · simp
      · simp [hw]
        ring
    · have hne : (c == k) = false := beq_eq_false_iff_ne.mpr hk
      simp [keyFields, addA, hne, Ne.symm hk]

/-- One addA update never decreases any component of any key. -/
theorem addA_mono (m : TotalsMap) (c : String) (f : ARecord)
    (hp : 0 ≤ decimalOf f.proceeds) (hb : 0 ≤ decimalOf f.basis)
    (hw : ∀ ws, f.wash = some ws → 0 ≤ decimalOf ws) (k : String) :
    (m k).proceeds ≤ (addA m c f k).proceeds ∧
    (m k).basis ≤ (addA m c f k).basis ∧
    (m k).wash ≤ (addA m c f k).wash := by
  unfold addA
  by_cases hk : k = c
  · subst hk
    rw [if_pos rfl]
    refine ⟨by simp [hp], by simp [hb], ?_⟩
    cases hfw : f.wash with
    | none => simp
    | some ws => simpa using hw ws hfw
  · simp [hk]

theorem mkBlock_good {c : String} (f : ARecord)
    (hc : c = "B" ∨ c = "E") : goodBlock (mkBlock c f) := by
  rcases hc with rfl | rfl
  · exact Or.inl rfl
  · exact Or.inr rfl

/-- Loop invariant: with the running category confined to B and E, every
block ever emitted carries refnumber 711 or 713. -/
theorem runALoop_blocks : ∀ (fuel : Nat) (lines : List String) (i : Nat)
    (cat : Option String) (totals : TotalsMap) (blocks : List Block),
    (∀ c, cat = some c → c = "B" ∨ c = "E") →
    (∀ b ∈ blocks, goodBlock b) →
    ∀ b ∈ (runALoop fuel lines i cat totals blocks).blocks, goodBlock b := by
  intro fuel
  induction fuel with
  | zero => intro lines i cat totals blocks _ hb b hm; exact hb b hm
  | succ n ih =>
    intro lines i cat totals blocks hcat hb b hm
    rw [runALoop] at hm
    by_cases hi : i < lines.length
    · rw [if_pos hi] at hm
      cases hmm : markerMatch (lines.getD i "") with
      | some c =>
        simp only [hmm] at hm
        exact ih _ _ _ _ _
          (fun c' hc' => by cases hc'; exact markerScan_mem _ _ hmm) hb b hm
      | none =>
        simp only [hmm] at hm
        by_cases hcus : isCusip (lines.getD i "") = true
        · rw [if_neg (not_not_intro hcus)] at hm
          cases cat with
          | none => exact hb b hm
          | some c =>
            simp only [] at hm
            by_cases hlen : lines.length < i + 3
            · rw [if_pos hlen] at hm; exact hb b hm
            · rw [if_neg hlen] at hm
              cases hpar : parseARecord lines i (pyUpper (lines.getD i "")) with
              | error e => simp only [hpar] at hm; exact hb b hm
              | ok fc =>
                obtain ⟨f, combined⟩ := fc
                simp only [hpar] at hm
                refine ih _ _ _ _ _
                  (fun c' hc' => by cases hc'; exact hcat c rfl)
                  (fun b' hb' => ?_) b hm
                rcases List.mem_append.mp hb' with h' | h'
                · exact hb b' h'
                · rcases List.mem_singleton.mp h' with rfl
                  exact mkBlock_good f (hcat c rfl)
        · rw [if_pos hcus] at hm
          exact ih _ _ _ _ _ hcat hb b hm
    · rw [if_neg hi] at hm
      exact hb b hm

/-- Neither registry line contains a checkbox marker. -/
theorem isCusip_noMarker {line : String} (h : isCusip line = true) :
    markerMatch line = none := by
  unfold isCusip at h
  rcases (Bool.or_eq_true _ _).mp h with h1 | h1
  · rw [show line = "02079K305" from by simpa using h1]; decide
  · rw [show line = "02079K107" from by simpa using h1]; decide

/-- If a registry line appears at index j and nothing before it is a
marker or registry line, the loop started at i with no category exits
with the checkbox error, leaving the blocks written so far untouched. -/
theorem runALoop_cusipFirst : ∀ (d fuel : Nat) (lines : List String)
    (i j : Nat) (totals : TotalsMap) (blocks : List Block),
    j - i = d → i ≤ j → j < lines.length →
    lines.length + 1 ≤ fuel + i →
    (∀ x, i ≤ x → x < j → markerMatch (lines.getD x "") = none ∧
      isCusip (lines.getD x "") = false) →
    isCusip (lines.getD j "") = true →
    runALoop fuel lines i none totals blocks =
      ⟨blocks, totals, some (.exitMsg
        "Error: could not determine applicable Form 8949 checkbox")⟩ := by
  intro d
  induction d with
  | zero =>
    intro fuel lines i j totals blocks hd hij hj hfuel hskip hcus
    have hji : i = j := by omega
    subst hji
    obtain ⟨f, rfl⟩ : ∃ f, fuel = f + 1 := ⟨fuel - 1, by omega⟩
    rw [List.getD_eq_getElem _ _ hj] at hcus
    simp [runALoop, hj, isCusip_noMarker hcus, hcus]
  | succ n ih =>
    intro fuel lines i j totals blocks hd hij hj hfuel hskip hcus
    obtain ⟨f, rfl⟩ : ∃ f, fuel = f + 1 := ⟨fuel - 1, by omega⟩
    have hi : i < j := by omega
    obtain ⟨hm0, hc0⟩ := hskip i le_rfl hi
    have hilen : i < lines.length := by omega
    simp only [runALoop, hilen, if_true, hm0, hc0]
    simp only [Bool.false_eq_true, not_false_eq_true, if_true]
    exact ih f lines (i + 1) j totals blocks (by omega) (by omega) hj
      (by omega) (fun x hx1 hx2 => hskip x (by omega) hx2) hcus

end Convert2022

theorem dateLe_refl (a : SDate) : dateLe a a := by
  unfold dateLe; omega

theorem dateLe_trans {a b c : SDate} (h1 : dateLe a b) (h2 : dateLe b c) :
    dateLe a c := by
  unfold dateLe at *; omega

theorem dateLe_total (a b : SDate) : dateLe a b ∨ dateLe b a := by
  unfold dateLe; omega

/-- Two incomparable-by-le dates in one direction are distinct. -/
theorem ne_of_not_dateLe {a b : SDate} (h : ¬ dateLe a b) : ¬ b = a := by
  intro he
  apply h
  rw [he]
  exact dateLe_refl a

namespace Taxform

/-- Inserting a record satisfying p, when everything it passes over
fails p, prepends it to the filtered list. -/
theorem filter_orderedInsert_pos (p : Record → Bool) (a : Record)
    (hpa : p a = true) (hkey : ∀ b, ¬ saleLe a b → p b = false) :
    ∀ l, (List.orderedInsert saleLe a l).filter p = a :: l.filter p := by
  intro l
  induction l with
  | nil => simp [List.orderedInsert, hpa]
  | cons b t ih =>
    rw [List.orderedInsert]
    split
    · simp [hpa]
    · rename_i hnot
      rw [List.filter_cons, List.filter_cons]
      rw [hkey b hnot]
      simpa [hkey b hnot] using ih

/-- Inserting a record failing p leaves the filtered list unchanged. -/
theorem filter_orderedInsert_neg (p : Record → Bool) (a : Record)
    (hpa : p a = false) :
    ∀ l, (List.orderedInsert saleLe a l).filter p = l.filter p := by
  intro l
  induction l with
  | nil => simp [List.orderedInsert, hpa]
  | cons b t ih =>
    rw [List.orderedInsert]
    split
    · simp [hpa]
    · rw [List.filter_cons, List.filter_cons, ih]

/-- Stability of the sort: the subsequence of records bearing any fixed
sale date is exactly the input subsequence. -/
theorem sortRecs_stable (d : SDate) : ∀ l : List Record,
    (sortRecs l).filter (fun r => r.sale_date = d) =
      l.filter (fun r => r.sale_date = d) := by
  intro l
  induction l with
  | nil => rfl
  | cons x l ih =>
    show (List.orderedInsert saleLe x (sortRecs l)).filter _ = _
    by_cases px : x.sale_date = d
    · rw [filter_orderedInsert_pos _ x (by simp [px]) ?hk, ih,
        List.filter_cons_of_pos (by simp [px])]
      case hk =>
        intro b hb
        simp only [decide_eq_false_iff_not]
        intro hbd
        exact absurd (show saleLe x b from by
          unfold saleLe
          rw [hbd, px]
          exact dateLe_refl d) hb
    · rw [filter_orderedInsert_neg _ x (by simp [px]), ih,
        List.filter_cons_of_neg (by simp [px])]

/-- The sorted output is in non-decreasing sale-date order. -/
theorem sortRecs_sorted (l : List Record) :
    List.Sorted saleLe (sortRecs l) :=
  List.sorted_insertionSort saleLe l

end Taxform

namespace Convert2022

/-- A line starting with a minus sign matches neither record pattern, so
the record parser aborts on it. -/
theorem parseARecord_negQty {lines : List String} {i : Nat} {cusip : String}
    (h : strStarts "-" (lines.getD (i + 1) "") = true) :
    isErrE (parseARecord lines i cusip) = true := by
  obtain ⟨rest, hrest⟩ : ∃ rest, (lines.getD (i + 1) "").toList = '-' :: rest := by
    unfold strStarts at h
    cases hcs : (lines.getD (i + 1) "").toList with
    | nil => rw [hcs] at h; exact absurd h (by decide)
    | cons c cs =>
      rw [hcs] at h
      have hc : '-' = c := by simpa [List.isPrefixOf] using h
      exact ⟨cs, by rw [← hc]⟩
  have hdig : ('-' :: rest).takeWhile Char.isDigit = [] := by
    rw [List.takeWhile_cons_of_neg (by decide)]
  have hnum : munchNumber (lines.getD (i + 1) "").toList = none := by
    rw [hrest]
    simp [munchNumber, munchDigits1, hdig]
  have hcomb : combinedMatch (lines.getD (i + 1) "") = none := by
    simp only [combinedMatch, hnum]
  have hshare : sharesMatch (lines.getD (i + 1) "") = none := by
    simp only [sharesMatch, hnum]
  simp only [parseARecord, hcomb, hshare, isErrE]

end Convert2022

namespace Taxform

/-- find_cusip only returns lines bearing one of the two registry
prefixes (it never checks full registry membership). -/
theorem findCusipAux_starts : ∀ (fuel : Nat) (t : Tok) (cusip : String)
    (t' : Tok), findCusipAux fuel t = some (cusip, t') →
    strStarts "3825" cusip = true ∨ strStarts "0207" cusip = true := by
  intro fuel
  induction fuel with
  | zero => intro t cusip t' h; exact Option.noConfusion h
  | succ n ih =>
    intro t cusip t' h
    simp only [findCusipAux] at h
    split at h
    · split at h
      · rename_i hpre
        injection h with h1
        injection h1 with h2 h3
        subst h2
        exact (Bool.or_eq_true _ _).mp hpre
      · exact ih _ _ _ h
    · exact Option.noConfusion h

end Taxform


/-! ## The claims -/

/-- C1: for every list of accepted records the final totals per
classification key equal the exact-decimal sums of that key's proceeds,
basis and wash amounts (an absent wash contributing zero), starting from
zero accumulators.  First conjunct: the keyed accumulator of the
checkbox variant; second conjunct: the running totals of the
self-contained variant equal the sums over the accepted record list. -/
theorem claim_C1 :
    (∀ (rs : List (String × Convert2022.ARecord)) (k : String),
      Convert2022.aggregateA rs k =
        ⟨Convert2022.sumProcA (Convert2022.keyFields rs k),
         Convert2022.sumBasisA (Convert2022.keyFields rs k),
         Convert2022.sumWashA (Convert2022.keyFields rs k)⟩) ∧
    (∀ (L : List String) (rs : List Taxform.Record) (tp tb tw : ℚ),
      Taxform.parse1099Form L = .ok (rs, tp, tb, tw) →
      tp = Taxform.sumProc rs ∧ tb = Taxform.sumBasis rs ∧
        tw = Taxform.sumWash rs) := by
  constructor
  · intro rs k
    have h := Convert2022.aggregateA_foldl rs Convert2022.zeroTotals k
    simpa [Convert2022.aggregateA, Convert2022.zeroTotals] using h
  · intro L rs tp tb tw h
    obtain ⟨new, h1, hp, hb, hw⟩ :=
      Taxform.parseLoop_spec _ _ _ _ _ _ _ h
    simp only [List.nil_append] at h1
    subst h1
    simp only [zero_add] at hp hb hw
    exact ⟨hp, hb, hw⟩

/-- C1 witness: the standard input, one record, totals equal the sums. -/
theorem claim_C1_witness :
    Taxform.parse1099Form stdLines =
      .ok ([stdRecord], mkRat 146697 50, mkRat 146671 50, 0) ∧
    mkRat 146697 50 = Taxform.sumProc [stdRecord] ∧
    mkRat 146671 50 = Taxform.sumBasis [stdRecord] ∧
    (0 : ℚ) = Taxform.sumWash [stdRecord] := by
  have hp : Taxform.parse1099Form stdLines =
      .ok ([stdRecord], mkRat 146697 50, mkRat 146671 50, 0) := by decide
  exact ⟨hp, claim_C1.2 stdLines [stdRecord] _ _ _ hp⟩

/-- C2 counterexample: the self-contained variant parses the standard
no-wash input and its block still contains a wash line, the bare "$"
with an empty amount, refuting that the wash field is omitted entirely
in every variant. -/
theorem claim_C2_counterexample :
    Taxform.parse1099Form stdLines =
      .ok ([stdRecord], mkRat 146697 50, mkRat 146671 50, 0) ∧
    stdRecord.total_reported_wash = none ∧
    (Taxform.txfRecordLines stdRecord).getD 9 "" = "$" := by
  refine ⟨by decide, rfl, by decide⟩

/-- C2 (amended): in the checkbox-driven variant a record block with an
absent wash amount carries exactly the seven fields T N P D D $ $ and no
wash field; in the self-contained variant the block always contains a
tenth line for the wash amount, rendered as the bare "$" (an empty
amount, never zero) when the wash is absent. -/
theorem claim_C2 :
    (∀ (c : String) (f : Convert2022.ARecord), f.wash = none →
      (Convert2022.mkBlock c f).map Prod.fst =
        ["T", "N", "P", "D", "D", "$", "$"]) ∧
    (∀ r : Taxform.Record, r.total_reported_wash = none →
      (Taxform.txfRecordLines r).getD 9 "" = "$") := by
  constructor
  · intro c f hw
    simp only [Convert2022.mkBlock, hw]
    rfl
  · intro r hw
    simp [Taxform.txfRecordLines, Taxform.compute_total_wash, hw]

/-- C2 witness: both conjuncts applied to concrete wash-free records. -/
theorem claim_C2_witness :
    (Convert2022.mkBlock "E"
      { symbol := "GOOG", desc := "0 SHARES OF GOOG", acq := "07/25/2019",
        sale := "08/06/2020", proceeds := "4,498.54", basis := "3,413.43",
        wash := none }).map Prod.fst =
      ["T", "N", "P", "D", "D", "$", "$"] ∧
    (Taxform.txfRecordLines stdRecord).getD 9 "" = "$" :=
  ⟨claim_C2.1 "E" _ rfl, claim_C2.2 stdRecord rfl⟩

/-- C3 counterexample: a checkbox-variant run whose quantity token is 0
finishes without error and emits a record block for it, refuting that a
record with quantity 0 is never produced in either variant. -/
theorem claim_C3_counterexample :
    (Convert2022.runA qty0Lines).err = none ∧
    (Convert2022.runA qty0Lines).blocks = [qty0Block] := by
  constructor <;> decide

/-- C3 (amended): the self-contained variant never produces a record
with quantity at most 0; the checkbox-driven variant does not parse the
quantity numerically, accepting a quantity token of 0, though a leading
minus sign fails its line patterns and aborts the run. -/
theorem claim_C3 :
    (∀ (L : List String) (rs : List Taxform.Record) (tp tb tw : ℚ),
      Taxform.parse1099Form L = .ok (rs, tp, tb, tw) →
      ∀ r ∈ rs, 0 < r.quantity) ∧
    (∀ (lines : List String) (i : Nat) (cusip : String),
      strStarts "-" (lines.getD (i + 1) "") = true →
      isErrE (Convert2022.parseARecord lines i cusip) = true) := by
  constructor
  · intro L rs tp tb tw h
    exact Taxform.parseLoop_pos _ _ _ _ _ _ _ (by intro r hr; cases hr) h
  · intro lines i cusip h
    exact Convert2022.parseARecord_negQty h

/-- C3 witness: the standard record has positive quantity, and a
negative quantity line aborts the checkbox-variant record parse. -/
theorem claim_C3_witness :
    (0 : ℚ) < stdRecord.quantity ∧
    isErrE (Convert2022.parseARecord
      ["02079K107", "-1 SHARES OF GOOG"] 0 "02079K107") = true := by
  constructor
  · exact claim_C3.1 stdLines [stdRecord] (mkRat 146697 50) (mkRat 146671 50)
      0 (by decide) stdRecord (List.mem_singleton.mpr rfl)
  · exact claim_C3.2 ["02079K107", "-1 SHARES OF GOOG"] 0 "02079K107"
      (by decide)

/-- C4 counterexample: the self-contained variant accepts an identifier
that is not in the registry (02071111 is in neither registry entry) and
never checks it against the inline symbol GOOG, whose registry
identifier is 02079K107; the record is produced, not rejected. -/
theorem claim_C4_counterexample :
    Taxform.parse1099Form badCusipLines =
      .ok ([badCusipRecord], mkRat 146697 50, mkRat 146671 50, 0) ∧
    badCusipRecord.cusip = "02071111" ∧
    badCusipRecord.symbol = "GOOG" ∧
    Convert2022.CUSIPS "GOOG" = "02079K107" ∧
    ¬ "02071111" = "02079K107" ∧ ¬ "02071111" = "02079K305" := by
  refine ⟨by decide, rfl, rfl, rfl, by decide, by decide⟩

/-- C4 (amended): in the checkbox-driven variant an accepted record's
inline symbol always maps back to the identifier line (exact registry
membership is what selects the line; others are skipped, not rejected);
the self-contained variant accepts any line bearing the prefix 3825 or
0207 as the identifier, with no registry membership or symbol
consistency check. -/
theorem claim_C4 :
    (∀ (lines : List String) (i : Nat) (cusip : String)
      (f : Convert2022.ARecord) (b : Bool),
      Convert2022.parseARecord lines i cusip = .ok (f, b) →
      Convert2022.CUSIPS f.symbol = cusip) ∧
    (∀ (t : Taxform.Tok) (cusip : String) (t' : Taxform.Tok),
      Taxform.find_cusip t = some (cusip, t') →
      strStarts "3825" cusip = true ∨ strStarts "0207" cusip = true) := by
  constructor
  · intro lines i cusip f b h
    exact (Convert2022.parseARecord_ok h).1
  · intro t cusip t' h
    exact Taxform.findCusipAux_starts _ _ _ _ h

/-- C4 witness: both conjuncts at concrete states. -/
theorem claim_C4_witness :
    Convert2022.CUSIPS "GOOG" = "02079K107" ∧
    (strStarts "3825" "02071111" = true ∨ strStarts "0207" "02071111" = true) := by
  constructor
  · exact claim_C4.1 qty0Lines 1 "02079K107"
      { symbol := "GOOG", desc := "0 SHARES OF GOOG", acq := "07/25/2019",
        sale := "08/06/2020", proceeds := "4,498.54", basis := "3,413.43",
        wash := none } false (by decide)
  · exact claim_C4.2 ⟨["02071111"], 0, []⟩ "02071111" ⟨["02071111"], 1, []⟩
      (by decide)

/-- C5: in the self-contained parse the wash amounts are resolved
exactly as specified at both junctions: after the basis, a token equal
to the noncovered flag X means no wash amount there (the empty marker),
otherwise that token is the wash amount and the next token must be X or
the run aborts; after the sale date, a token other than the reporting
designator GROSS becomes the wash amount, overwriting any earlier value,
and the token after it must be GROSS or the run aborts. -/
theorem claim_C5 :
    (∀ (t t1 : Taxform.Tok), Taxform.next_token t = (some "X", t1) →
      Taxform.washJunction1 t = .ok (some "", t1)) ∧
    (∀ (t t1 t2 : Taxform.Tok) (w : Option String),
      Taxform.next_token t = (w, t1) → ¬ w = some "X" →
      Taxform.next_token t1 = (some "X", t2) →
      Taxform.washJunction1 t = .ok (w, t2)) ∧
    (∀ (t t1 t2 : Taxform.Tok) (w nc : Option String),
      Taxform.next_token t = (w, t1) → ¬ w = some "X" →
      Taxform.next_token t1 = (nc, t2) → ¬ nc = some "X" →
      Taxform.washJunction1 t = .error (Taxform.genError t2)) ∧
    (∀ (t t1 : Taxform.Tok) (wash : Option String),
      Taxform.next_token t = (some "GROSS", t1) →
      Taxform.washJunction2 wash t = .ok (wash, t1)) ∧
    (∀ (t t1 t2 : Taxform.Tok) (wash m : Option String),
      Taxform.next_token t = (m, t1) → ¬ m = some "GROSS" →
      Taxform.next_token t1 = (some "GROSS", t2) →
      Taxform.washJunction2 wash t = .ok (m, t2)) ∧
    (∀ (t t1 t2 : Taxform.Tok) (wash m g : Option String),
      Taxform.next_token t = (m, t1) → ¬ m = some "GROSS" →
      Taxform.next_token t1 = (g, t2) → ¬ g = some "GROSS" →
      Taxform.washJunction2 wash t = .error (Taxform.genError t2)) := by
  refine ⟨?_, ?_, ?_, ?_, ?_, ?_⟩
  · intro t t1 h
    simp [Taxform.washJunction1, h]
  · intro t t1 t2 w h1 h2 h3
    simp [Taxform.washJunction1, h1, h2, h3]
  · intro t t1 t2 w nc h1 h2 h3 h4
    simp [Taxform.washJunction1, h1, h2, h3, h4]
  · intro t t1 wash h
    simp [Taxform.washJunction2, h]
  · intro t t1 t2 wash m h1 h2 h3
    simp [Taxform.washJunction2, h1, h2, h3]
  · intro t t1 t2 wash m g h1 h2 h3 h4
    simp [Taxform.washJunction2, h1, h2, h3, h4]

/-- C5 witness: the junctions applied to concrete token buffers. -/
theorem claim_C5_witness :
    Taxform.washJunction1 (tokState ["X", "a"]) = .ok (some "", tokState ["a"]) ∧
    Taxform.washJunction1 (tokState ["200.00", "X", "a"]) =
      .ok (some "200.00", tokState ["a"]) ∧
    Taxform.washJunction2 (some "") (tokState ["150.00", "GROSS"]) =
      .ok (some "150.00", tokState []) := by
  refine ⟨claim_C5.1 _ _ rfl, ?_, ?_⟩
  · exact claim_C5.2.1 _ _ _ (some "200.00") rfl (by decide) rfl
  · exact claim_C5.2.2.2.2.1 _ _ _ (some "") (some "150.00") rfl
      (by decide) rfl

/-- C6 counterexample: the self-contained variant emits refnumber 715 in
every block (here for a parsed record), while the fixed lookup maps
Box B to 711 and Box E to 713 and has no other entries, refuting that
only lookup values are ever emitted. -/
theorem claim_C6_counterexample :
    Taxform.parse1099Form stdLines =
      .ok ([stdRecord], mkRat 146697 50, mkRat 146671 50, 0) ∧
    (Taxform.txfRecordLines stdRecord).getD 1 "" = "N715" ∧
    Convert2022.TXF_CATEGORIES "B" = some 711 ∧
    Convert2022.TXF_CATEGORIES "E" = some 713 ∧
    ¬ (715 : Nat) = 711 ∧ ¬ (715 : Nat) = 713 := by
  refine ⟨by decide, by decide, rfl, rfl, by decide, by decide⟩

/-- C6 (amended): in the checkbox-driven variant every emitted record
block carries after the N marker the lookup value of the current
classification marker, 711 for Box B or 713 for Box E and nothing else;
the self-contained variant always emits the fixed refnumber 715. -/
theorem claim_C6 :
    (∀ (lines : List String) (b : Convert2022.Block),
      b ∈ (Convert2022.runA lines).blocks →
      b.getD 1 ("", "") = ("N", "711") ∨ b.getD 1 ("", "") = ("N", "713")) ∧
    (∀ r : Taxform.Record, (Taxform.txfRecordLines r).getD 1 "" = "N715") := by
  constructor
  · intro lines b hb
    exact Convert2022.runALoop_blocks _ _ _ _ _ _
      (fun c hc => Option.noConfusion hc) (fun b hb => absurd hb
        (List.not_mem_nil b)) b hb
  · intro r
    rfl

/-- C6 witness: the block emitted for qty0Lines carries N 713, and a
concrete record block of the self-contained variant carries N715. -/
theorem claim_C6_witness :
    (qty0Block.getD 1 ("", "") = ("N", "711") ∨
      qty0Block.getD 1 ("", "") = ("N", "713")) ∧
    (Taxform.txfRecordLines stdRecord).getD 1 "" = "N715" := by
  constructor
  · exact claim_C6.1 qty0Lines qty0Block (by decide)
  · exact claim_C6.2 stdRecord

/-- C7: when sorting is enabled (the self-contained variant always sorts
before emitting), the records are emitted in non-decreasing sale-date
order, and the sort is stable: the subsequence of records bearing any
given sale date is exactly the input subsequence. -/
theorem claim_C7 :
    ∀ l : List Taxform.Record,
      List.Sorted Taxform.saleLe (Taxform.sortRecs l) ∧
      ∀ d : SDate,
        (Taxform.sortRecs l).filter (fun r => r.sale_date = d) =
          l.filter (fun r => r.sale_date = d) :=
  fun l => ⟨Taxform.sortRecs_sorted l, fun d => Taxform.sortRecs_stable d l⟩

/-- C8 counterexample: on an input whose first line is a registry
identifier with no preceding checkbox marker, the run aborts with the
fatal checkbox error, but an output file exists and already contains the
TXF header, refuting that no output file is produced. -/
theorem claim_C8_counterexample :
    (Convert2022.runA ["02079K107"]).err =
      some (.exitMsg "Error: could not determine applicable Form 8949 checkbox") ∧
    Convert2022.fileBlocks ["02079K107"] "01/01/2026" =
      [Convert2022.headerBlock "01/01/2026"] ∧
    ¬ Convert2022.fileBlocks ["02079K107"] "01/01/2026" = [] := by
  refine ⟨by decide, by decide, by decide⟩

/-- C8 (amended): in the checkbox-driven run, a qualifying identifier
line occurring before any classification marker aborts the whole run
with the fatal checkbox error; the output file then contains exactly the
header written at startup (a partial file, not no file). -/
theorem claim_C8 :
    ∀ (lines : List String) (today : String) (j : Nat),
      j < lines.length →
      (∀ x, x < j → Convert2022.markerMatch (lines.getD x "") = none ∧
        Convert2022.isCusip (lines.getD x "") = false) →
      Convert2022.isCusip (lines.getD j "") = true →
      (Convert2022.runA lines).err = some (.exitMsg
        "Error: could not determine applicable Form 8949 checkbox") ∧
      Convert2022.fileBlocks lines today =
        [Convert2022.headerBlock today] := by
  intro lines today j hj hskip hcus
  have h := Convert2022.runALoop_cusipFirst j (lines.length + 1) lines 0 j
    Convert2022.zeroTotals [] (by omega) (by omega) hj (by omega)
    (fun x hx1 hx2 => hskip x hx2) hcus
  constructor
  · show (Convert2022.runA lines).err = _
    unfold Convert2022.runA
    rw [h]
  · show Convert2022.fileBlocks lines today = _
    unfold Convert2022.fileBlocks Convert2022.runA
    rw [h]

/-- C8 witness: a non-record line followed by a bare identifier. -/
theorem claim_C8_witness :
    (Convert2022.runA ["junk line", "02079K107"]).err = some (.exitMsg
      "Error: could not determine applicable Form 8949 checkbox") ∧
    Convert2022.fileBlocks ["junk line", "02079K107"] "02/02/2026" =
      [Convert2022.headerBlock "02/02/2026"] := by
  exact claim_C8 ["junk line", "02079K107"] "02/02/2026" 1 (by decide)
    (by intro x hx
        interval_cases x
        exact ⟨by decide, by decide⟩)
    (by decide)

/-- C9 counterexample: the self-contained variant accepts a record whose
proceeds token is signed, and its running proceeds total drops from its
initial zero to a negative value: the accumulator is decremented. -/
theorem claim_C9_counterexample :
    Taxform.parse1099Form negLines =
      .ok ([negRecord], mkRat (-5) 1, mkRat 146671 50, 0) ∧
    mkRat (-5) 1 < 0 := by
  refine ⟨by decide, by decide⟩

/-- C9 (amended): the totals accumulator maps every classification key
to the zero triple initially and is updated once per accepted record; in
the checkbox-driven variant every component is monotonically
non-decreasing because the line patterns match only unsigned amounts,
but the self-contained variant accepts signed amount tokens that
decrement its totals. -/
theorem claim_C9 :
    (∀ k, Convert2022.zeroTotals k = ⟨0, 0, 0⟩) ∧
    (∀ (lines : List String) (i : Nat) (cusip : String)
      (f : Convert2022.ARecord) (b : Bool),
      Convert2022.parseARecord lines i cusip = .ok (f, b) →
      ∀ (m : Convert2022.TotalsMap) (c k : String),
        (m k).proceeds ≤ (Convert2022.addA m c f k).proceeds ∧
        (m k).basis ≤ (Convert2022.addA m c f k).basis ∧
        (m k).wash ≤ (Convert2022.addA m c f k).wash) := by
  constructor
  · intro k
    rfl
  · intro lines i cusip f b h m c k
    obtain ⟨-, hp, hb, hw⟩ := Convert2022.parseARecord_ok h
    exact Convert2022.addA_mono m c f hp hb hw k

/-- C9 witness: the zero map at a concrete key, and one concrete update
that only increases components. -/
theorem claim_C9_witness :
    Convert2022.zeroTotals "E" = ⟨0, 0, 0⟩ ∧
    ((Convert2022.zeroTotals "E").proceeds ≤
      ((Convert2022.addA Convert2022.zeroTotals "E"
        { symbol := "GOOG", desc := "0 SHARES OF GOOG", acq := "07/25/2019",
          sale := "08/06/2020", proceeds := "4,498.54", basis := "3,413.43",
          wash := none }) "E").proceeds) := by
  constructor
  · exact claim_C9.1 "E"
  · exact (claim_C9.2 qty0Lines 1 "02079K107" _ false (by decide)
      Convert2022.zeroTotals "E" "E").1

/-- C10: in the self-contained program a parse that yields zero records
aborts with an error before any output file is written, and an output
file is produced only when at least one record was parsed and the output
filename ends in .txf. -/
theorem claim_C10 :
    (∀ (L : List String) (out today : String) (tp tb tw : ℚ),
      Taxform.parse1099Form L = .ok ([], tp, tb, tw) →
      isErrE (Taxform.mainB L out today) = true) ∧
    (∀ (L : List String) (out today content : String),
      Taxform.mainB L out today = .ok content →
      (∃ rs tp tb tw, Taxform.parse1099Form L = .ok (rs, tp, tb, tw) ∧
        ¬ rs = []) ∧ strEnds ".txf" out = true) := by
  constructor
  · intro L out today tp tb tw h
    simp [Taxform.mainB, h, Taxform.sortRecs, isErrE]
  · intro L out today content h
    cases hok : Taxform.parse1099Form L with
    | error e =>
      simp only [Taxform.mainB, hok] at h
      exact Except.noConfusion h
    | ok res =>
      obtain ⟨rs, tp, tb, tw⟩ := res
      simp only [Taxform.mainB, hok] at h
      by_cases hlen : (Taxform.sortRecs rs).length = 0
      · rw [if_pos hlen] at h
        exact Except.noConfusion h
      · rw [if_neg hlen] at h
        by_cases hext : strEnds ".txf" out = true
        · refine ⟨⟨rs, tp, tb, tw, rfl, ?_⟩, hext⟩
          intro hnil
          subst hnil
          simp [Taxform.sortRecs] at hlen
        · rw [if_neg hext] at h
          exact Except.noConfusion h

/-- C10 witness: the empty input parses to zero records and the run
aborts; the standard input converts successfully to a .txf name. -/
theorem claim_C10_witness :
    isErrE (Taxform.mainB [] "out.txf" "01/01/2026") = true ∧
    strEnds ".txf" "out.txf" = true := by
  constructor
  · exact claim_C10.1 [] "out.txf" "01/01/2026" 0 0 0 (by decide)
  · exact (claim_C10.2 stdLines "out.txf" "01/01/2026"
      "V042\nA quick and dirty TXF script\nD01/01/2026\n^\nTD\nN715\nC1\nL1\nP2.0 GOOG\nD01/27/2020\nD02/06/2020\n$2933.42\n$2933.94\n$\n^\n"
      (by decide)).2
